import Mathlib

/-!
The acpid socket interface (`sock.c`).

A shallow embedding of `process_sock` and `open_sock`.  Every library or
system call the two functions make is recorded, in program order, as an
`Event` of the call's trace; the values those calls return are supplied by
an environment record, so that every outcome the operating system can give
is covered by quantifying over the record.  The file-level variables of
`sock.c` and the function-static `accept_errors` are the fields of
`Globals`.
-/

namespace Acpid

/-! ## Constants and C integers -/

/-- `EXIT_FAILURE` of `<stdlib.h>`. -/
def EXIT_FAILURE : Int := 1

/-- `STDIN_FILENO` of `<unistd.h>`. -/
def STDIN_FILENO : Int := 0

/-- Largest value of a C `int` (32 bits). -/
def INT_MAX : Int := 2147483647

/-- Two's-complement reading of an integer as a 32-bit C `int`: what `++` on
an `int` leaves behind, and what the conversion `%d` reads from an
`unsigned int` argument. -/
def wrapInt (v : Int) : Int := (v + 2147483648) % 4294967296 - 2147483648

/-! ## Data -/

/-- `struct ucred`: `pid_t pid; uid_t uid; gid_t gid;`. -/
structure ucred where
  pid : Int
  uid : Nat
  gid : Nat
  deriving DecidableEq, Repr

/-- Values stored in the `process` function pointer of a connection. -/
inductive Callback where
  | process_sock
  deriving DecidableEq, Repr

/-- The fields of `struct connection` that `open_sock` assigns; `pathname`
is `none` for `NULL`. -/
structure connection where
  fd : Int
  process : Callback
  pathname : Option String
  kybd : Int
  deriving DecidableEq, Repr

/-- One call made by `sock.c` to the outside, with its arguments (and, for
`ud_accept` and `fcntl`, the value it returned). -/
inductive Event where
  | getsockopt (fd : Int)
  | ud_accept (fd : Int) (ret : Int)
  | acpid_log (fmt : String)
  | close (fd : Int)
  | fcntl_setfd_cloexec (fd : Int) (ret : Int)
  | fcntl_setfl_nonblock (fd : Int) (ret : Int)
  | acpid_add_client (fd : Int) (label : String)
  | clean_exit_with_status (status : Int)
  | ud_create_socket (path : String)
  | chmod (path : String) (mode : Nat)
  | getgrnam (name : String)
  | stat (path : String)
  | chown (path : String) (uid : Nat) (gid : Nat)
  | exit (status : Int)
  | add_connection (c : connection)
  deriving DecidableEq, Repr

/-- The file-level variables of `sock.c` together with the static local
`accept_errors` of `process_sock`.  `socketgroup` is `none` for `NULL`. -/
structure Globals where
  socketfile : String
  socketgroup : Option String
  socketmode : Nat
  clientmax : Int
  non_root_clients : Int
  accept_errors : Int
  deriving DecidableEq, Repr

/-- What one call of `process_sock` or `open_sock` leaves behind: the
variables, the calls it made, and the exit status if it ended the
process instead of returning. -/
structure Result where
  g : Globals
  trace : List Event
  exited : Option Int
  deriving DecidableEq, Repr

/-! ## `process_sock` -/

/-- The conversion `%d` applied to an `int`. -/
def fmt_d (v : Int) : String := toString v

/-- The text `snprintf(buf, size, ...)` leaves in `buf` when the complete
output would be `s`: at most `size - 1` characters of it. -/
def snprintf (size : Nat) (s : String) : String := String.mk (s.data.take (size - 1))

/-- The label: `snprintf(buf, sizeof(buf)-1, "%d[%d:%d]", creds.pid,
creds.uid, creds.gid)` with `char buf[32]`.  `uid` and `gid` are unsigned
and are read by `%d` as `int`. -/
def client_label (creds : ucred) : String :=
  snprintf (32 - 1)
    (fmt_d creds.pid ++ "[" ++ fmt_d (wrapInt creds.uid) ++ ":" ++ fmt_d (wrapInt creds.gid) ++ "]")

/-- Modelled from the spec: `clean_exit_with_status` is defined outside
`sock.c`; by the spec's process-exit contract it ends the process with the
status it is given. -/
def clean_exit_with_status (status : Int) : Option Int := some status

/-- The outcome of the calls one invocation of `process_sock(fd)` makes:
the value and credentials returned by `ud_accept`, and the values returned
by the two `fcntl` calls. -/
structure AcceptEnv where
  fd : Int
  cli_fd : Int
  creds : ucred
  setfd : Int
  setfl : Int
  deriving DecidableEq, Repr

/-- `process_sock(fd)`: accept a new client connection. -/
def process_sock (g : Globals) (e : AcceptEnv) : Result :=
  let t0 := [Event.ud_accept e.fd e.cli_fd]
  if e.cli_fd < 0 then
    let g1 := { g with accept_errors := wrapInt (g.accept_errors + 1) }
    let t1 := t0 ++ [Event.acpid_log "can't accept client: %s"]
    if g1.accept_errors ≥ 5 then
      ⟨g1, t1 ++ [Event.acpid_log "giving up", Event.clean_exit_with_status EXIT_FAILURE],
        clean_exit_with_status EXIT_FAILURE⟩
    else
      ⟨g1, t1, none⟩
  else
    let g1 := { g with accept_errors := 0 }
    if e.creds.uid ≠ 0 ∧ g1.non_root_clients ≥ g1.clientmax then
      ⟨g1, t0 ++ [Event.close e.cli_fd, Event.acpid_log "too many non-root clients"], none⟩
    else
      let g2 :=
        if e.creds.uid ≠ 0 then
          { g1 with non_root_clients := wrapInt (g1.non_root_clients + 1) }
        else g1
      let t2 := t0 ++ [Event.fcntl_setfd_cloexec e.cli_fd e.setfd]
      if e.setfd < 0 then
        ⟨g2, t2 ++ [Event.close e.cli_fd,
          Event.acpid_log "fcntl() on client for FD_CLOEXEC: %s"], none⟩
      else
        let t3 := t2 ++ [Event.fcntl_setfl_nonblock e.cli_fd e.setfl]
        if e.setfl < 0 then
          ⟨g2, t3 ++ [Event.close e.cli_fd,
            Event.acpid_log "fcntl() on client for O_NONBLOCK: %s"], none⟩
        else
          ⟨g2, t3 ++ [Event.acpid_add_client e.cli_fd (client_label e.creds)], none⟩

/-! ## `open_sock` -/

/-- `is_socket(fd)`: `getsockopt(fd, SOL_SOCKET, SO_TYPE, ...) == 0`. -/
def is_socket (getsockopt : Int → Int) (fd : Int) : Bool := getsockopt fd == 0

/-- The outcome of the calls `open_sock` makes: the value `getsockopt`
returns for each descriptor, the values returned by `ud_create_socket`,
`chmod`, `stat`, `chown` and the two `fcntl` calls, the group id found by
`getgrnam` (`none` for a null result) and the `st_uid` filled in by `stat`. -/
structure OpenEnv where
  getsockopt : Int → Int
  ud_create_socket : Int
  chmod : Int
  getgrnam : Option Nat
  stat : Int
  st_uid : Nat
  chown : Int
  setfd : Int
  setfl : Int

/-- The tail of `open_sock` shared by the inherited and the created socket:
the two `fcntl` calls and the registration of the listener. -/
def open_sock_harden (g : Globals) (e : OpenEnv) (fd : Int) (t : List Event) : Result :=
  let t1 := t ++ [Event.fcntl_setfd_cloexec fd e.setfd]
  if e.setfd < 0 then
    ⟨g, t1 ++ [Event.close fd, Event.acpid_log "fcntl() on socket %s for FD_CLOEXEC: %s"], none⟩
  else
    let t2 := t1 ++ [Event.fcntl_setfl_nonblock fd e.setfl]
    if e.setfl < 0 then
      ⟨g, t2 ++ [Event.close fd, Event.acpid_log "fcntl() on socket %s for O_NONBLOCK: %s"], none⟩
    else
      ⟨g, t2 ++ [Event.add_connection
        { fd := fd, process := Callback.process_sock, pathname := none, kybd := 0 }], none⟩

/-- `open_sock()`: set up the socket for client connections. -/
def open_sock (g : Globals) (e : OpenEnv) : Result :=
  let t0 := [Event.getsockopt STDIN_FILENO]
  if is_socket e.getsockopt STDIN_FILENO then
    open_sock_harden g e STDIN_FILENO t0
  else
    let fd := e.ud_create_socket
    let t1 := t0 ++ [Event.ud_create_socket g.socketfile]
    if fd < 0 then
      ⟨g, t1 ++ [Event.acpid_log "can't open socket %s: %s", Event.exit EXIT_FAILURE],
        some EXIT_FAILURE⟩
    else
      let t2 := t1 ++ [Event.chmod g.socketfile g.socketmode]
      if e.chmod < 0 then
        ⟨g, t2 ++ [Event.close fd, Event.acpid_log "chmod() on socket %s: %s"], none⟩
      else
        match g.socketgroup with
        | none => open_sock_harden g e fd t2
        | some grp =>
          let t3 := t2 ++ [Event.getgrnam grp]
          match e.getgrnam with
          | none =>
            ⟨g, t3 ++ [Event.acpid_log "group %s does not exist", Event.exit EXIT_FAILURE],
              some EXIT_FAILURE⟩
          | some gr_gid =>
            let t4 := t3 ++ [Event.stat g.socketfile]
            if e.stat < 0 then
              ⟨g, t4 ++ [Event.acpid_log "can't stat %s: %s", Event.exit EXIT_FAILURE],
                some EXIT_FAILURE⟩
            else
              let t5 := t4 ++ [Event.chown g.socketfile e.st_uid gr_gid]
              if e.chown < 0 then
                ⟨g, t5 ++ [Event.acpid_log "can't chown %s: %s", Event.exit EXIT_FAILURE],
                  some EXIT_FAILURE⟩
              else
                open_sock_harden g e fd t5

/-! ## A running daemon: successive invocations of `process_sock` -/

/-- The daemon as seen from `sock.c`: its variables, every call made so
far, and the exit status once the process has ended. -/
structure Proc where
  g : Globals
  trace : List Event
  exited : Option Int
  deriving DecidableEq, Repr

/-- One accept-ready notification: `process_sock` runs unless the process
has already ended. -/
def step (p : Proc) (e : AcceptEnv) : Proc :=
  match p.exited with
  | some _ => p
  | none =>
    let r := process_sock p.g e
    ⟨r.g, p.trace ++ r.trace, r.exited⟩

/-- A sequence of accept-ready notifications, in order. -/
def run (p : Proc) (es : List AcceptEnv) : Proc := es.foldl step p

/-- The data connections handed to `acpid_add_client` in a trace. -/
def clients : List Event → List (Int × String)
  | [] => []
  | Event.acpid_add_client fd label :: t => (fd, label) :: clients t
  | _ :: t => clients t

/-- How often `close(fd)` occurs in a trace. -/
def closeCount (fd : Int) (t : List Event) : Nat := t.count (Event.close fd)

/-- Whether `ud_accept` failed in an invocation. -/
def AcceptEnv.failed (e : AcceptEnv) : Bool := decide (e.cli_fd < 0)

/-- The label as the specification words it: the decimal pid, `[`, the
decimal uid, `:`, the decimal gid and `]`, with `uid` and `gid` read as the
unsigned numbers they are.  Not taken from the code; `client_label` is. -/
def spec_label (creds : ucred) : String :=
  toString creds.pid ++ "[" ++ toString creds.uid ++ ":" ++ toString creds.gid ++ "]"

/-! ## Sample configurations and outcomes -/

/-- The default configuration at process start with room for two
non-root clients. -/
def sampleGlobals : Globals :=
  { socketfile := "/var/run/acpid.socket", socketgroup := none, socketmode := 438,
    clientmax := 2, non_root_clients := 0, accept_errors := 0 }

/-- A configuration whose quota of non-root clients is used up. -/
def fullGlobals : Globals := { sampleGlobals with non_root_clients := 2 }

/-- A successful accept of a non-root peer, both `fcntl` calls succeeding. -/
def userAccept : AcceptEnv :=
  { fd := 3, cli_fd := 7, creds := { pid := 1234, uid := 1000, gid := 100 }, setfd := 0, setfl := 0 }

/-- A successful accept of a root peer, both `fcntl` calls succeeding. -/
def rootAccept : AcceptEnv :=
  { fd := 3, cli_fd := 7, creds := { pid := 1, uid := 0, gid := 0 }, setfd := 0, setfl := 0 }

/-- A failed accept. -/
def failedAccept : AcceptEnv :=
  { fd := 3, cli_fd := -1, creds := { pid := 0, uid := 0, gid := 0 }, setfd := 0, setfl := 0 }

/-! ## Auxiliary facts -/

theorem wrapInt_eq_self {v : Int} (hlo : -2147483648 ≤ v) (hhi : v ≤ INT_MAX) :
    wrapInt v = v := by
  unfold INT_MAX at hhi
  unfold wrapInt
  omega

theorem step_of_exited {p : Proc} {st : Int} (h : p.exited = some st) (e : AcceptEnv) :
    step p e = p := by
  simp [step, h]

theorem step_of_running {p : Proc} (h : p.exited = none) (e : AcceptEnv) :
    step p e =
      ⟨(process_sock p.g e).g, p.trace ++ (process_sock p.g e).trace,
        (process_sock p.g e).exited⟩ := by
  simp [step, h]

theorem run_nil (p : Proc) : run p [] = p := rfl

theorem run_cons (p : Proc) (e : AcceptEnv) (es : List AcceptEnv) :
    run p (e :: es) = run (step p e) es := rfl

theorem run_concat (p : Proc) (es : List AcceptEnv) (e : AcceptEnv) :
    run p (es ++ [e]) = step (run p es) e := by
  simp [run, List.foldl_append]

theorem process_sock_clientmax (g : Globals) (e : AcceptEnv) :
    (process_sock g e).g.clientmax = g.clientmax := by
  unfold process_sock
  by_cases h1 : e.cli_fd < 0 <;> by_cases h2 : e.creds.uid = 0 <;>
    by_cases h3 : g.clientmax ≤ g.non_root_clients <;>
    by_cases h4 : e.setfd < 0 <;> by_cases h5 : e.setfl < 0 <;>
    by_cases h6 : wrapInt (g.accept_errors + 1) ≥ 5 <;>
    simp [h1, h2, h3, h4, h5, h6]

theorem process_sock_counter (g : Globals) (e : AcceptEnv) :
    (process_sock g e).g.non_root_clients =
      if 0 ≤ e.cli_fd ∧ e.creds.uid ≠ 0 ∧ g.non_root_clients < g.clientmax then
        wrapInt (g.non_root_clients + 1)
      else g.non_root_clients := by
  unfold process_sock
  by_cases h1 : e.cli_fd < 0 <;> by_cases h2 : e.creds.uid = 0 <;>
    by_cases h3 : g.clientmax ≤ g.non_root_clients <;>
    by_cases h4 : e.setfd < 0 <;> by_cases h5 : e.setfl < 0 <;>
    by_cases h6 : wrapInt (g.accept_errors + 1) ≥ 5 <;>
    simp [h1, h2, h3, h4, h5, h6] <;> omega

theorem eq_of_append_singleton_eq {x : Event} {T pre post : List Event} (hx : x ∉ T)
    (h : T ++ [x] = pre ++ x :: post) : pre = T := by
  induction T generalizing pre with
  | nil =>
    cases pre with
    | nil => rfl
    | cons a pre =>
      simp only [List.nil_append, List.cons_append, List.cons.injEq] at h
      have : x ∈ pre ++ x :: post := by simp
      rw [← h.2] at this
      simp at this
  | cons a T ih =>
    cases pre with
    | nil =>
      simp only [List.cons_append, List.nil_append, List.cons.injEq] at h
      exact absurd (by simp [h.1]) hx
    | cons b pre =>
      simp only [List.cons_append, List.cons.injEq] at h
      have hT : x ∉ T := fun hm => hx (List.mem_cons_of_mem _ hm)
      rw [h.1, ih hT h.2]

theorem process_sock_registers (g : Globals) (e : AcceptEnv) (fd : Int) (label : String)
    (h : Event.acpid_add_client fd label ∈ (process_sock g e).trace) :
    0 ≤ e.setfd ∧ 0 ≤ e.setfl ∧ fd = e.cli_fd ∧ label = client_label e.creds ∧
      (process_sock g e).trace =
        [Event.ud_accept e.fd e.cli_fd, Event.fcntl_setfd_cloexec e.cli_fd e.setfd,
          Event.fcntl_setfl_nonblock e.cli_fd e.setfl] ++
          [Event.acpid_add_client fd label] := by
  unfold process_sock at h ⊢
  by_cases h1 : e.cli_fd < 0 <;> by_cases h2 : e.creds.uid = 0 <;>
    by_cases h3 : g.clientmax ≤ g.non_root_clients <;>
    by_cases h4 : e.setfd < 0 <;> by_cases h5 : e.setfl < 0 <;>
    by_cases h6 : wrapInt (g.accept_errors + 1) ≥ 5 <;>
    simp [h1, h2, h3, h4, h5, h6] at h ⊢ <;>
    (obtain ⟨rfl, rfl⟩ := h; exact ⟨by omega, by omega, rfl, rfl, rfl, rfl⟩)

theorem open_sock_harden_registers (g : Globals) (e : OpenEnv) (fd : Int) (t : List Event)
    (c : connection) (ht : Event.add_connection c ∉ t)
    (h : Event.add_connection c ∈ (open_sock_harden g e fd t).trace) :
    0 ≤ e.setfd ∧ 0 ≤ e.setfl ∧
      c = { fd := fd, process := Callback.process_sock, pathname := none, kybd := 0 } ∧
      (open_sock_harden g e fd t).trace =
        (t ++ [Event.fcntl_setfd_cloexec fd e.setfd, Event.fcntl_setfl_nonblock fd e.setfl]) ++
          [Event.add_connection c] := by
  unfold open_sock_harden at h ⊢
  by_cases h4 : e.setfd < 0 <;> by_cases h5 : e.setfl < 0 <;>
    simp [h4, h5, ht] at h ⊢
  subst h
  simp
  omega

theorem open_sock_registers (g : Globals) (e : OpenEnv) (c : connection)
    (h : Event.add_connection c ∈ (open_sock g e).trace) :
    ∃ t : List Event, Event.add_connection c ∉ t ∧ 0 ≤ e.setfd ∧ 0 ≤ e.setfl ∧
      (open_sock g e).trace =
        (t ++ [Event.fcntl_setfd_cloexec c.fd e.setfd,
          Event.fcntl_setfl_nonblock c.fd e.setfl]) ++ [Event.add_connection c] := by
  have key : ∀ (fd : Int) (t : List Event), Event.add_connection c ∉ t →
      Event.add_connection c ∈ (open_sock_harden g e fd t).trace →
      ∃ u : List Event, Event.add_connection c ∉ u ∧ 0 ≤ e.setfd ∧ 0 ≤ e.setfl ∧
        (open_sock_harden g e fd t).trace =
          (u ++ [Event.fcntl_setfd_cloexec c.fd e.setfd,
            Event.fcntl_setfl_nonblock c.fd e.setfl]) ++ [Event.add_connection c] := by
    intro fd t ht hm
    obtain ⟨a, b, hc, htr⟩ := open_sock_harden_registers g e fd t c ht hm
    refine ⟨t, ht, a, b, ?_⟩
    rw [htr, hc]
  unfold open_sock at h ⊢
  by_cases h0 : is_socket e.getsockopt STDIN_FILENO = true
  · simp only [h0, if_true] at h ⊢
    exact key _ _ (by simp) h
  · simp only [h0, if_false] at h ⊢
    by_cases h1 : e.ud_create_socket < 0
    · simp [h1] at h
    · by_cases h2 : e.chmod < 0
      · simp [h1, h2] at h
      · cases hg : g.socketgroup with
        | none =>
          simp only [h1, h2, hg, if_false] at h ⊢
          exact key _ _ (by simp) h
        | some grp =>
          cases hn : e.getgrnam with
          | none => simp [h1, h2, hg, hn] at h
          | some gid =>
            by_cases h3 : e.stat < 0
            · simp [h1, h2, hg, hn, h3] at h
            · by_cases h4 : e.chown < 0
              · simp [h1, h2, hg, hn, h3, h4] at h
              · simp only [h1, h2, hg, hn, h3, h4, if_false] at h ⊢
                exact key _ _ (by simp) h

theorem replicate_succ_suffix_concat (n : Nat) (a b : Bool) (bs : List Bool) :
    List.replicate (n + 1) a <:+ bs ++ [b] ↔ b = a ∧ List.replicate n a <:+ bs := by
  rw [← List.reverse_prefix, List.reverse_append, List.reverse_replicate, List.replicate_succ]
  simp only [List.reverse_cons, List.reverse_nil, List.nil_append, List.singleton_append,
    List.cons_prefix_cons]
  rw [← List.reverse_replicate, List.reverse_prefix, List.reverse_replicate]
  constructor
  · rintro ⟨h, k⟩
    exact ⟨h.symm, k⟩
  · rintro ⟨h, k⟩
    exact ⟨h.symm, k⟩

theorem process_sock_failed_accept (g : Globals) (e : AcceptEnv) (h : e.cli_fd < 0) :
    (process_sock g e).g.accept_errors = wrapInt (g.accept_errors + 1) ∧
      ((process_sock g e).exited =
        if 5 ≤ wrapInt (g.accept_errors + 1) then some EXIT_FAILURE else none) ∧
      (Event.clean_exit_with_status EXIT_FAILURE ∈ (process_sock g e).trace ↔
        5 ≤ wrapInt (g.accept_errors + 1)) := by
  unfold process_sock
  by_cases h6 : 5 ≤ wrapInt (g.accept_errors + 1) <;>
    simp [h, h6, clean_exit_with_status]

theorem process_sock_good_accept (g : Globals) (e : AcceptEnv) (h : ¬ e.cli_fd < 0) :
    (process_sock g e).g.accept_errors = 0 ∧ (process_sock g e).exited = none ∧
      Event.clean_exit_with_status EXIT_FAILURE ∉ (process_sock g e).trace := by
  unfold process_sock
  by_cases h2 : e.creds.uid = 0 <;>
    by_cases h3 : g.clientmax ≤ g.non_root_clients <;>
    by_cases h4 : e.setfd < 0 <;> by_cases h5 : e.setfl < 0 <;>
    simp [h, h2, h3, h4, h5]

/-- The state of the daemon after a sequence of notifications, in terms of
the sequence of accept outcomes alone. -/
theorem run_streak (g : Globals) (h0 : g.accept_errors = 0) (es : List AcceptEnv) :
    ((run ⟨g, [], none⟩ es).exited = some EXIT_FAILURE ∧
        List.replicate 5 true <:+: es.map AcceptEnv.failed ∧
        Event.clean_exit_with_status EXIT_FAILURE ∈ (run ⟨g, [], none⟩ es).trace) ∨
      ((run ⟨g, [], none⟩ es).exited = none ∧
        ¬ List.replicate 5 true <:+: es.map AcceptEnv.failed ∧
        Event.clean_exit_with_status EXIT_FAILURE ∉ (run ⟨g, [], none⟩ es).trace ∧
        ∃ k : Nat, (run ⟨g, [], none⟩ es).g.accept_errors = (k : Int) ∧ k ≤ 4 ∧
          List.replicate k true <:+ es.map AcceptEnv.failed ∧
          ¬ List.replicate (k + 1) true <:+ es.map AcceptEnv.failed) := by
  induction es using List.reverseRecOn with
  | nil =>
    right
    refine ⟨rfl, by decide, by simp [run_nil], 0, by simpa [run_nil] using h0, by omega,
      by simp, by decide⟩
  | append_singleton es e ih =>
    rw [run_concat, List.map_append, List.map_singleton]
    rcases ih with ⟨hx, hin, hev⟩ | ⟨hx, hnin, hev, k, hk, hk4, hsuf, hnsuf⟩
    · left
      rw [step_of_exited hx]
      exact ⟨hx, List.infix_concat_iff.mpr (Or.inr hin), hev⟩
    · rw [step_of_running hx]
      by_cases hf : e.cli_fd < 0
      · obtain ⟨a, b, c⟩ := process_sock_failed_accept (run ⟨g, [], none⟩ es).g e hf
        have hfailed : e.failed = true := by simp [AcceptEnv.failed, hf]
        have hw : wrapInt ((run ⟨g, [], none⟩ es).g.accept_errors + 1) = ((k + 1 : Nat) : Int) := by
          rw [hk]
          rw [wrapInt_eq_self (by omega) (by unfold INT_MAX; omega)]
          push_cast
          rfl
        rw [hw] at a b c
        by_cases h5 : k = 4
        · left
          subst h5
          refine ⟨by simpa using b, ?_, ?_⟩
          · rw [hfailed]
            exact List.infix_concat_iff.mpr
              (Or.inl ((replicate_succ_suffix_concat 4 true true _).mpr ⟨rfl, hsuf⟩))
          · simp only [List.mem_append]
            right
            exact c.mpr (by norm_num)
        · right
          have hlt : ¬ (5 : Int) ≤ ((k + 1 : Nat) : Int) := by omega
          refine ⟨by rw [b, if_neg hlt], ?_, ?_, k + 1, a, by omega, ?_, ?_⟩
          · rw [hfailed, List.infix_concat_iff]
            rintro (h | h)
            · have h4 := ((replicate_succ_suffix_concat 4 true true _).mp h).2
              apply hnsuf
              have hle : List.replicate (k + 1) true <:+ List.replicate 4 true := by
                refine ⟨List.replicate (4 - (k + 1)) true, ?_⟩
                rw [List.append_replicate_replicate]
                congr 1
                omega
              exact hle.trans h4
            · exact hnin h
          · simp only [List.mem_append, not_or]
            exact ⟨hev, fun h => hlt (c.mp h)⟩
          · rw [hfailed]
            exact (replicate_succ_suffix_concat k true true _).mpr ⟨rfl, hsuf⟩
          · rw [hfailed]
            intro h
            exact hnsuf ((replicate_succ_suffix_concat (k + 1) true true _).mp h).2
      · obtain ⟨a, b, c⟩ := process_sock_good_accept (run ⟨g, [], none⟩ es).g e hf
        have hfailed : e.failed = false := by simp [AcceptEnv.failed, hf]
        right
        refine ⟨b, ?_, ?_, 0, by simpa using a, by omega, by simp, ?_⟩
        · rw [hfailed, List.infix_concat_iff]
          rintro (h | h)
          · have := ((replicate_succ_suffix_concat 4 true false _).mp h).1
            exact absurd this (by decide)
          · exact hnin h
        · simp only [List.mem_append, not_or]
          exact ⟨hev, c⟩
        · rw [hfailed]
          intro h
          have := ((replicate_succ_suffix_concat 0 true false _).mp h).1
          exact absurd this (by decide)

theorem fmt_d_natCast (n : Nat) : fmt_d (n : Int) = toString n := rfl

theorem client_label_eq_take (c : ucred) (hu : (c.uid : Int) ≤ INT_MAX)
    (hg : (c.gid : Int) ≤ INT_MAX) :
    client_label c = String.mk ((spec_label c).data.take 30) := by
  have h1 : wrapInt (c.uid : Int) = (c.uid : Int) := wrapInt_eq_self (by omega) hu
  have h2 : wrapInt (c.gid : Int) = (c.gid : Int) := wrapInt_eq_self (by omega) hg
  have h3 : client_label c = snprintf (32 - 1)
      (fmt_d c.pid ++ "[" ++ fmt_d (wrapInt c.uid) ++ ":" ++ fmt_d (wrapInt c.gid) ++ "]") := rfl
  rw [h3, h1, h2, fmt_d_natCast, fmt_d_natCast]
  rfl

theorem spec_label_length (c : ucred) :
    (spec_label c).length =
      (toString c.pid).length + (toString c.uid).length + (toString c.gid).length + 3 := by
  simp [spec_label, String.length_append]
  have : "[".length = 1 ∧ ":".length = 1 ∧ "]".length = 1 := by decide
  omega

/-! ## Theorems about a single call of `process_sock` -/

/-- C1: when the accept succeeds, the peer's uid is non-zero and
`non_root_clients >= clientmax` on entry, `process_sock` closes the accepted
descriptor, calls `acpid_add_client` for nothing, returns, and leaves
`non_root_clients` as it was. -/
theorem quota_rejection_closes_and_keeps_counter (g : Globals) (e : AcceptEnv)
    (hacc : 0 ≤ e.cli_fd) (huid : e.creds.uid ≠ 0) (hfull : g.clientmax ≤ g.non_root_clients) :
    (process_sock g e).trace =
        [Event.ud_accept e.fd e.cli_fd, Event.close e.cli_fd,
          Event.acpid_log "too many non-root clients"] ∧
      Event.close e.cli_fd ∈ (process_sock g e).trace ∧
      (∀ fd label, Event.acpid_add_client fd label ∉ (process_sock g e).trace) ∧
      (process_sock g e).g.non_root_clients = g.non_root_clients ∧
      (process_sock g e).exited = none := by
  have h1 : ¬ e.cli_fd < 0 := not_lt.mpr hacc
  simp [process_sock, h1, huid, hfull]

theorem quota_rejection_closes_and_keeps_counter_witness :
    (0 : Int) ≤ userAccept.cli_fd ∧ userAccept.creds.uid ≠ 0 ∧
      fullGlobals.clientmax ≤ fullGlobals.non_root_clients ∧
      ((process_sock fullGlobals userAccept).trace =
        [Event.ud_accept userAccept.fd userAccept.cli_fd, Event.close userAccept.cli_fd,
          Event.acpid_log "too many non-root clients"] ∧
      Event.close userAccept.cli_fd ∈ (process_sock fullGlobals userAccept).trace ∧
      (∀ fd label, Event.acpid_add_client fd label ∉ (process_sock fullGlobals userAccept).trace) ∧
      (process_sock fullGlobals userAccept).g.non_root_clients = fullGlobals.non_root_clients ∧
      (process_sock fullGlobals userAccept).exited = none) :=
  ⟨by decide, by decide, by decide,
    quota_rejection_closes_and_keeps_counter fullGlobals userAccept
      (by decide) (by decide) (by decide)⟩

/-- C2: when the accept succeeds with peer uid 0, whatever the values of
`non_root_clients` and `clientmax`, `process_sock` does not take the
quota-rejection branch, registers the connection whenever both `fcntl` calls
succeed, and leaves `non_root_clients` as it was. -/
theorem root_peer_never_rejected_by_quota (g : Globals) (e : AcceptEnv)
    (hacc : 0 ≤ e.cli_fd) (huid : e.creds.uid = 0) :
    Event.acpid_log "too many non-root clients" ∉ (process_sock g e).trace ∧
      (0 ≤ e.setfd → 0 ≤ e.setfl →
        (process_sock g e).trace =
          [Event.ud_accept e.fd e.cli_fd, Event.fcntl_setfd_cloexec e.cli_fd e.setfd,
            Event.fcntl_setfl_nonblock e.cli_fd e.setfl,
            Event.acpid_add_client e.cli_fd (client_label e.creds)]) ∧
      (process_sock g e).g.non_root_clients = g.non_root_clients := by
  have h1 : ¬ e.cli_fd < 0 := not_lt.mpr hacc
  refine ⟨?_, ?_, ?_⟩
  · simp only [process_sock, h1, huid]
    by_cases h2 : e.setfd < 0 <;> by_cases h3 : e.setfl < 0 <;> simp [h2, h3]
  · intro h2 h3
    simp [process_sock, h1, huid, not_lt.mpr h2, not_lt.mpr h3]
  · simp only [process_sock, h1, huid]
    by_cases h2 : e.setfd < 0 <;> by_cases h3 : e.setfl < 0 <;> simp [h2, h3]

theorem root_peer_never_rejected_by_quota_witness :
    (0 : Int) ≤ rootAccept.cli_fd ∧ rootAccept.creds.uid = 0 ∧
      (Event.acpid_log "too many non-root clients" ∉ (process_sock fullGlobals rootAccept).trace ∧
      (0 ≤ rootAccept.setfd → 0 ≤ rootAccept.setfl →
        (process_sock fullGlobals rootAccept).trace =
          [Event.ud_accept rootAccept.fd rootAccept.cli_fd,
            Event.fcntl_setfd_cloexec rootAccept.cli_fd rootAccept.setfd,
            Event.fcntl_setfl_nonblock rootAccept.cli_fd rootAccept.setfl,
            Event.acpid_add_client rootAccept.cli_fd (client_label rootAccept.creds)]) ∧
      (process_sock fullGlobals rootAccept).g.non_root_clients = fullGlobals.non_root_clients) :=
  ⟨by decide, by decide,
    root_peer_never_rejected_by_quota fullGlobals rootAccept (by decide) (by decide)⟩

/-- C9: when the accept succeeds, `process_sock` either closes the accepted
descriptor exactly once and registers nothing (on quota rejection, on
failure of the `FD_CLOEXEC` call, on failure of the `O_NONBLOCK` call), or
registers it exactly once through `acpid_add_client` and never closes it;
no invocation registers more than one connection, and one whose accept
fails registers none. -/
theorem accepted_descriptor_closed_or_registered (g : Globals) (e : AcceptEnv) :
    (0 ≤ e.cli_fd →
      (((e.creds.uid ≠ 0 ∧ g.clientmax ≤ g.non_root_clients) ∨ e.setfd < 0 ∨ e.setfl < 0) →
        closeCount e.cli_fd (process_sock g e).trace = 1 ∧
          clients (process_sock g e).trace = []) ∧
      (¬ ((e.creds.uid ≠ 0 ∧ g.clientmax ≤ g.non_root_clients) ∨ e.setfd < 0 ∨ e.setfl < 0) →
        closeCount e.cli_fd (process_sock g e).trace = 0 ∧
          clients (process_sock g e).trace = [(e.cli_fd, client_label e.creds)])) ∧
      (clients (process_sock g e).trace).length ≤ 1 ∧
      (e.cli_fd < 0 → clients (process_sock g e).trace = []) := by
  unfold process_sock
  by_cases h1 : e.cli_fd < 0 <;> by_cases h2 : e.creds.uid = 0 <;>
    by_cases h3 : g.clientmax ≤ g.non_root_clients <;>
    by_cases h4 : e.setfd < 0 <;> by_cases h5 : e.setfl < 0 <;>
    by_cases h6 : wrapInt (g.accept_errors + 1) ≥ 5 <;>
    simp [h1, h2, h3, h4, h5, h6, clients, closeCount]

theorem accepted_descriptor_closed_or_registered_witness :
    closeCount userAccept.cli_fd (process_sock sampleGlobals userAccept).trace = 0 ∧
      clients (process_sock sampleGlobals userAccept).trace =
        [(userAccept.cli_fd, client_label userAccept.creds)] :=
  ((accepted_descriptor_closed_or_registered sampleGlobals userAccept).1 (by decide)).2
    (by decide)

/-- C10: if `0 <= non_root_clients <= clientmax` holds before a call of
`process_sock` it holds after it, whatever `ud_accept` and the `fcntl` calls
return; the counter is left alone or raised by exactly one without leaving
the range of `int`; hence no sequence of invocations started within the
bound (in particular from `non_root_clients = 0`) takes the counter above
`clientmax`, which itself never changes. -/
theorem counter_never_exceeds_clientmax (g : Globals)
    (hmax : g.clientmax ≤ INT_MAX) (hlo : 0 ≤ g.non_root_clients)
    (hhi : g.non_root_clients ≤ g.clientmax) :
    (∀ e : AcceptEnv,
      0 ≤ (process_sock g e).g.non_root_clients ∧
        (process_sock g e).g.non_root_clients ≤ (process_sock g e).g.clientmax ∧
        (process_sock g e).g.clientmax = g.clientmax ∧
        ((process_sock g e).g.non_root_clients = g.non_root_clients ∨
          (process_sock g e).g.non_root_clients = g.non_root_clients + 1) ∧
        (process_sock g e).g.non_root_clients ≤ INT_MAX) ∧
      (∀ (t : List Event) (es : List AcceptEnv),
        0 ≤ (run ⟨g, t, none⟩ es).g.non_root_clients ∧
          (run ⟨g, t, none⟩ es).g.non_root_clients ≤ g.clientmax ∧
          (run ⟨g, t, none⟩ es).g.clientmax = g.clientmax) := by
  have one : ∀ (g : Globals), g.clientmax ≤ INT_MAX → 0 ≤ g.non_root_clients →
      g.non_root_clients ≤ g.clientmax → ∀ e : AcceptEnv,
      0 ≤ (process_sock g e).g.non_root_clients ∧
        (process_sock g e).g.non_root_clients ≤ (process_sock g e).g.clientmax ∧
        (process_sock g e).g.clientmax = g.clientmax ∧
        ((process_sock g e).g.non_root_clients = g.non_root_clients ∨
          (process_sock g e).g.non_root_clients = g.non_root_clients + 1) ∧
        (process_sock g e).g.non_root_clients ≤ INT_MAX := by
    intro g hmax hlo hhi e
    rw [process_sock_clientmax, process_sock_counter]
    by_cases hc : 0 ≤ e.cli_fd ∧ e.creds.uid ≠ 0 ∧ g.non_root_clients < g.clientmax
    · have hw : wrapInt (g.non_root_clients + 1) = g.non_root_clients + 1 :=
        wrapInt_eq_self (by omega) (by omega)
      rw [if_pos hc, hw]
      omega
    · rw [if_neg hc]
      omega
  refine ⟨one g hmax hlo hhi, ?_⟩
  have many : ∀ (es : List AcceptEnv) (p : Proc), p.g.clientmax ≤ INT_MAX →
      0 ≤ p.g.non_root_clients → p.g.non_root_clients ≤ p.g.clientmax →
      0 ≤ (run p es).g.non_root_clients ∧
        (run p es).g.non_root_clients ≤ p.g.clientmax ∧
        (run p es).g.clientmax = p.g.clientmax := by
    intro es
    induction es with
    | nil => intro p _ h0 h1; exact ⟨h0, h1, rfl⟩
    | cons e es ih =>
      intro p hm h0 h1
      rw [run_cons]
      cases hx : p.exited with
      | some st =>
        rw [step_of_exited hx]
        exact ih p hm h0 h1
      | none =>
        obtain ⟨a, b, c, _, _⟩ := one p.g hm h0 h1 e
        have := ih (step p e) (by rw [step_of_running hx]; simpa [c] using hm)
          (by rw [step_of_running hx]; exact a) (by rw [step_of_running hx]; exact b)
        rw [step_of_running hx] at this ⊢
        simpa [c] using this
  intro t es
  exact many es ⟨g, t, none⟩ hmax hlo hhi

theorem counter_never_exceeds_clientmax_witness :
    sampleGlobals.clientmax ≤ INT_MAX ∧ 0 ≤ sampleGlobals.non_root_clients ∧
      sampleGlobals.non_root_clients ≤ sampleGlobals.clientmax ∧
      (run ⟨sampleGlobals, [], none⟩ [userAccept, userAccept, userAccept]).g.non_root_clients
        ≤ sampleGlobals.clientmax :=
  ⟨by decide, by decide, by decide,
    ((counter_never_exceeds_clientmax sampleGlobals (by decide) (by decide) (by decide)).2 []
      [userAccept, userAccept, userAccept]).2.1⟩

/-! ## Theorems about `open_sock` and descriptor hardening -/

/-- An inherited listening socket: `getsockopt` succeeds on descriptor 0
and both `fcntl` calls succeed. -/
def inheritedEnv : OpenEnv :=
  { getsockopt := fun _ => 0, ud_create_socket := -1, chmod := -1, getgrnam := none,
    stat := -1, st_uid := 0, chown := -1, setfd := 0, setfl := 0 }

/-- No inherited socket; the socket is created as descriptor 4 and its mode
set, and the configured group is unknown to `getgrnam`. -/
def unknownGroupEnv : OpenEnv :=
  { getsockopt := fun _ => -1, ud_create_socket := 4, chmod := 0, getgrnam := none,
    stat := 0, st_uid := 0, chown := 0, setfd := 0, setfl := 0 }

/-- No inherited socket; every call succeeds and the group resolves to
gid 10. -/
def createdEnv : OpenEnv :=
  { getsockopt := fun _ => -1, ud_create_socket := 4, chmod := 0, getgrnam := some 10,
    stat := 0, st_uid := 0, chown := 0, setfd := 0, setfl := 0 }

/-- The sample configuration with the socket group set to `wheel`. -/
def wheelGlobals : Globals := { sampleGlobals with socketgroup := some "wheel" }

/-- C5: in every call of `process_sock` and of `open_sock`, a descriptor
is handed to the registry (`acpid_add_client`, `add_connection`) only after
`fcntl(fd, F_SETFD, FD_CLOEXEC)` and `fcntl(fd, F_SETFL, O_NONBLOCK)` were
both called, earlier in the same call, on that same descriptor, and both
returned a non-negative value; for the listener this holds whether it was
inherited or created. -/
theorem registered_descriptors_are_hardened :
    (∀ (g : Globals) (e : AcceptEnv) (fd : Int) (label : String) (pre post : List Event),
      (process_sock g e).trace = pre ++ Event.acpid_add_client fd label :: post →
        (∃ r, 0 ≤ r ∧ Event.fcntl_setfd_cloexec fd r ∈ pre) ∧
          (∃ r, 0 ≤ r ∧ Event.fcntl_setfl_nonblock fd r ∈ pre)) ∧
      (∀ (g : Globals) (e : OpenEnv) (c : connection) (pre post : List Event),
        (open_sock g e).trace = pre ++ Event.add_connection c :: post →
          (∃ r, 0 ≤ r ∧ Event.fcntl_setfd_cloexec c.fd r ∈ pre) ∧
            (∃ r, 0 ≤ r ∧ Event.fcntl_setfl_nonblock c.fd r ∈ pre)) := by
  constructor
  · intro g e fd label pre post h
    have hm : Event.acpid_add_client fd label ∈ (process_sock g e).trace := by
      rw [h]; simp
    obtain ⟨a, b, hfd, _, htr⟩ := process_sock_registers g e fd label hm
    rw [htr] at h
    have hp := eq_of_append_singleton_eq (by simp) h
    subst hfd
    exact ⟨⟨e.setfd, a, by simp [hp]⟩, ⟨e.setfl, b, by simp [hp]⟩⟩
  · intro g e c pre post h
    have hm : Event.add_connection c ∈ (open_sock g e).trace := by
      rw [h]; simp
    obtain ⟨t, ht, a, b, htr⟩ := open_sock_registers g e c hm
    have hnot : Event.add_connection c ∉
        t ++ [Event.fcntl_setfd_cloexec c.fd e.setfd,
          Event.fcntl_setfl_nonblock c.fd e.setfl] := by
      simp [ht]
    rw [htr] at h
    have hp := eq_of_append_singleton_eq hnot h
    exact ⟨⟨e.setfd, a, by simp [hp]⟩, ⟨e.setfl, b, by simp [hp]⟩⟩

theorem registered_descriptors_are_hardened_witness :
    ((process_sock sampleGlobals userAccept).trace =
        [Event.ud_accept 3 7, Event.fcntl_setfd_cloexec 7 0, Event.fcntl_setfl_nonblock 7 0] ++
          Event.acpid_add_client 7 "1234[1000:100]" :: [] ∧
      (open_sock wheelGlobals createdEnv).trace =
        [Event.getsockopt 0, Event.ud_create_socket "/var/run/acpid.socket",
          Event.chmod "/var/run/acpid.socket" 438, Event.getgrnam "wheel",
          Event.stat "/var/run/acpid.socket", Event.chown "/var/run/acpid.socket" 0 10,
          Event.fcntl_setfd_cloexec 4 0, Event.fcntl_setfl_nonblock 4 0] ++
          Event.add_connection ⟨4, Callback.process_sock, none, 0⟩ :: []) ∧
      ((∃ r, 0 ≤ r ∧ Event.fcntl_setfd_cloexec 7 r ∈
          [Event.ud_accept 3 7, Event.fcntl_setfd_cloexec 7 0, Event.fcntl_setfl_nonblock 7 0]) ∧
        (∃ r, 0 ≤ r ∧ Event.fcntl_setfl_nonblock 7 r ∈
          [Event.ud_accept 3 7, Event.fcntl_setfd_cloexec 7 0,
            Event.fcntl_setfl_nonblock 7 0])) :=
  ⟨⟨by decide, by decide⟩,
    registered_descriptors_are_hardened.1 sampleGlobals userAccept 7 "1234[1000:100]"
      [Event.ud_accept 3 7, Event.fcntl_setfd_cloexec 7 0, Event.fcntl_setfl_nonblock 7 0] []
      (by decide)⟩

/-- C6: when `is_socket(STDIN_FILENO)` is true, `open_sock` uses
`STDIN_FILENO` as the listener and calls none of `ud_create_socket`,
`chmod`, `getgrnam`, `stat`, `chown`, whatever `socketfile`, `socketmode`
and `socketgroup` are; if both `fcntl` calls succeed, the listener it
registers has `fd = STDIN_FILENO`, `process = process_sock`,
`pathname = NULL` and `kybd = 0`. -/
theorem inherited_socket_is_adopted (g : Globals) (e : OpenEnv)
    (hs : is_socket e.getsockopt STDIN_FILENO = true) :
    (∀ path mode name uid gid,
        Event.ud_create_socket path ∉ (open_sock g e).trace ∧
        Event.chmod path mode ∉ (open_sock g e).trace ∧
        Event.getgrnam name ∉ (open_sock g e).trace ∧
        Event.stat path ∉ (open_sock g e).trace ∧
        Event.chown path uid gid ∉ (open_sock g e).trace) ∧
      Event.fcntl_setfd_cloexec STDIN_FILENO e.setfd ∈ (open_sock g e).trace ∧
      (∀ fd r, Event.fcntl_setfd_cloexec fd r ∈ (open_sock g e).trace → fd = STDIN_FILENO) ∧
      (∀ fd r, Event.fcntl_setfl_nonblock fd r ∈ (open_sock g e).trace → fd = STDIN_FILENO) ∧
      (∀ fd, Event.close fd ∈ (open_sock g e).trace → fd = STDIN_FILENO) ∧
      (∀ c, Event.add_connection c ∈ (open_sock g e).trace →
        c = { fd := STDIN_FILENO, process := Callback.process_sock, pathname := none,
              kybd := 0 }) ∧
      (0 ≤ e.setfd → 0 ≤ e.setfl →
        (open_sock g e).trace =
          [Event.getsockopt STDIN_FILENO, Event.fcntl_setfd_cloexec STDIN_FILENO e.setfd,
            Event.fcntl_setfl_nonblock STDIN_FILENO e.setfl,
            Event.add_connection
              { fd := STDIN_FILENO, process := Callback.process_sock, pathname := none,
                kybd := 0 }]) ∧
      (open_sock g e).exited = none := by
  unfold open_sock open_sock_harden
  by_cases h4 : e.setfd < 0 <;> by_cases h5 : e.setfl < 0 <;>
    simp [hs, h4, h5]

theorem inherited_socket_is_adopted_witness :
    is_socket inheritedEnv.getsockopt STDIN_FILENO = true ∧
      (open_sock wheelGlobals inheritedEnv).trace =
        [Event.getsockopt STDIN_FILENO,
          Event.fcntl_setfd_cloexec STDIN_FILENO inheritedEnv.setfd,
          Event.fcntl_setfl_nonblock STDIN_FILENO inheritedEnv.setfl,
          Event.add_connection
            { fd := STDIN_FILENO, process := Callback.process_sock, pathname := none,
              kybd := 0 }] :=
  ⟨by decide,
    (inherited_socket_is_adopted wheelGlobals inheritedEnv (by decide)).2.2.2.2.2.2.1
      (by decide) (by decide)⟩

/-- C7: with no inherited socket, a successful `ud_create_socket`, a
successful `chmod`, and a configured `socketgroup` that `getgrnam` does not
resolve, `open_sock` ends the process with `EXIT_FAILURE`, never calls
`chown` and registers no listener. -/
theorem unknown_group_is_fatal (g : Globals) (e : OpenEnv) (grp : String)
    (hs : is_socket e.getsockopt STDIN_FILENO = false) (hc : 0 ≤ e.ud_create_socket)
    (hm : 0 ≤ e.chmod) (hg : g.socketgroup = some grp) (hn : e.getgrnam = none) :
    (open_sock g e).exited = some EXIT_FAILURE ∧
      (∀ path uid gid, Event.chown path uid gid ∉ (open_sock g e).trace) ∧
      (∀ c, Event.add_connection c ∉ (open_sock g e).trace) ∧
      (open_sock g e).trace =
        [Event.getsockopt STDIN_FILENO, Event.ud_create_socket g.socketfile,
          Event.chmod g.socketfile g.socketmode, Event.getgrnam grp,
          Event.acpid_log "group %s does not exist", Event.exit EXIT_FAILURE] := by
  unfold open_sock
  simp [hs, not_lt.mpr hc, not_lt.mpr hm, hg, hn]

theorem unknown_group_is_fatal_witness :
    is_socket unknownGroupEnv.getsockopt STDIN_FILENO = false ∧
      0 ≤ unknownGroupEnv.ud_create_socket ∧ 0 ≤ unknownGroupEnv.chmod ∧
      wheelGlobals.socketgroup = some "wheel" ∧ unknownGroupEnv.getgrnam = none ∧
      ((open_sock wheelGlobals unknownGroupEnv).exited = some EXIT_FAILURE ∧
      (∀ path uid gid, Event.chown path uid gid ∉ (open_sock wheelGlobals unknownGroupEnv).trace) ∧
      (∀ c, Event.add_connection c ∉ (open_sock wheelGlobals unknownGroupEnv).trace) ∧
      (open_sock wheelGlobals unknownGroupEnv).trace =
        [Event.getsockopt STDIN_FILENO, Event.ud_create_socket wheelGlobals.socketfile,
          Event.chmod wheelGlobals.socketfile wheelGlobals.socketmode, Event.getgrnam "wheel",
          Event.acpid_log "group %s does not exist", Event.exit EXIT_FAILURE]) :=
  ⟨by decide, by decide, by decide, by decide, by decide,
    unknown_group_is_fatal wheelGlobals unknownGroupEnv "wheel"
      (by decide) (by decide) (by decide) (by decide) (by decide)⟩

/-! ## Theorems about sequences of invocations -/

/-- C3: starting from `accept_errors = 0`, after any sequence of
`process_sock` invocations the process has been ended, through
`clean_exit_with_status(EXIT_FAILURE)`, exactly when the sequence contains
five accept failures in a row; the invocation that ends it is therefore the
fifth failure of such a row and none before it; and after four failures in
a row followed by one successful accept the process is still running and
`accept_errors` is 0. -/
theorem five_consecutive_accept_failures_terminate (g : Globals)
    (h0 : g.accept_errors = 0) :
    (∀ es : List AcceptEnv,
      ((run ⟨g, [], none⟩ es).exited = some EXIT_FAILURE ↔
          List.replicate 5 true <:+: es.map AcceptEnv.failed) ∧
      ((run ⟨g, [], none⟩ es).exited = none ↔
          ¬ List.replicate 5 true <:+: es.map AcceptEnv.failed) ∧
      (Event.clean_exit_with_status EXIT_FAILURE ∈ (run ⟨g, [], none⟩ es).trace ↔
          List.replicate 5 true <:+: es.map AcceptEnv.failed)) ∧
    (∀ (es : List AcceptEnv) (e : AcceptEnv), (run ⟨g, [], none⟩ es).exited = none →
        ((run ⟨g, [], none⟩ (es ++ [e])).exited = some EXIT_FAILURE ↔
          List.replicate 5 true <:+ (es ++ [e]).map AcceptEnv.failed)) ∧
    (∀ f1 f2 f3 f4 s : AcceptEnv,
      f1.cli_fd < 0 → f2.cli_fd < 0 → f3.cli_fd < 0 → f4.cli_fd < 0 → 0 ≤ s.cli_fd →
        (run ⟨g, [], none⟩ [f1, f2, f3, f4, s]).exited = none ∧
          (run ⟨g, [], none⟩ [f1, f2, f3, f4, s]).g.accept_errors = 0) := by
  have main : ∀ es : List AcceptEnv,
      ((run ⟨g, [], none⟩ es).exited = some EXIT_FAILURE ↔
          List.replicate 5 true <:+: es.map AcceptEnv.failed) ∧
      ((run ⟨g, [], none⟩ es).exited = none ↔
          ¬ List.replicate 5 true <:+: es.map AcceptEnv.failed) ∧
      (Event.clean_exit_with_status EXIT_FAILURE ∈ (run ⟨g, [], none⟩ es).trace ↔
          List.replicate 5 true <:+: es.map AcceptEnv.failed) := by
    intro es
    rcases run_streak g h0 es with ⟨hx, hin, hev⟩ | ⟨hx, hnin, hev, _⟩
    · exact ⟨⟨fun _ => hin, fun _ => hx⟩, ⟨fun h => (by rw [hx] at h; cases h),
        fun h => absurd hin h⟩, ⟨fun _ => hin, fun _ => hev⟩⟩
    · exact ⟨⟨fun h => (by rw [hx] at h; cases h), fun h => absurd h hnin⟩,
        ⟨fun _ => hnin, fun _ => hx⟩, ⟨fun h => absurd h hev, fun h => absurd h hnin⟩⟩
  refine ⟨main, ?_, ?_⟩
  · intro es e hrun
    have hnin := (main es).2.1.mp hrun
    rw [(main (es ++ [e])).1, List.map_append, List.map_singleton, List.infix_concat_iff]
    constructor
    · rintro (h | h)
      · exact h
      · exact absurd h hnin
    · exact Or.inl
  · intro f1 f2 f3 f4 s h1 h2 h3 h4 hs
    have hrun : (run ⟨g, [], none⟩ [f1, f2, f3, f4]).exited = none := by
      refine (main [f1, f2, f3, f4]).2.1.mpr ?_
      intro h
      have := h.length_le
      simp at this
    have hcat : run ⟨g, [], none⟩ [f1, f2, f3, f4, s] =
        step (run ⟨g, [], none⟩ [f1, f2, f3, f4]) s := run_concat _ [f1, f2, f3, f4] s
    rw [hcat, step_of_running hrun]
    obtain ⟨a, b, _⟩ :=
      process_sock_good_accept (run ⟨g, [], none⟩ [f1, f2, f3, f4]).g s (not_lt.mpr hs)
    exact ⟨b, a⟩

theorem five_consecutive_accept_failures_terminate_witness :
    sampleGlobals.accept_errors = 0 ∧
      (run ⟨sampleGlobals, [], none⟩
        [failedAccept, failedAccept, failedAccept, failedAccept, failedAccept]).exited =
          some EXIT_FAILURE ∧
      ((run ⟨sampleGlobals, [], none⟩
        [failedAccept, failedAccept, failedAccept, failedAccept, userAccept]).exited = none ∧
      (run ⟨sampleGlobals, [], none⟩
        [failedAccept, failedAccept, failedAccept, failedAccept, userAccept]).g.accept_errors = 0) :=
  ⟨by decide,
    ((five_consecutive_accept_failures_terminate sampleGlobals (by decide)).1
      [failedAccept, failedAccept, failedAccept, failedAccept, failedAccept]).1.mpr
      ⟨[], [], by decide⟩,
    (five_consecutive_accept_failures_terminate sampleGlobals (by decide)).2.2
      failedAccept failedAccept failedAccept failedAccept userAccept
      (by decide) (by decide) (by decide) (by decide) (by decide)⟩

/-- An accept of a non-root peer whose `FD_CLOEXEC` call fails. -/
def cloexecFails : AcceptEnv := { userAccept with setfd := -1 }

/-- C4 (the invariant "non_root_clients equals the number of registered
data connections admitted with non-zero uid" evaluated on the code): from
the initial state, one invocation that accepts a non-root peer and whose
`FD_CLOEXEC` call fails leaves `non_root_clients = 1` although the
descriptor was closed and no data connection is registered. -/
theorem counter_counts_dropped_client :
    sampleGlobals.non_root_clients = 0 ∧
      (run ⟨sampleGlobals, [], none⟩ [cloexecFails]).exited = none ∧
      (run ⟨sampleGlobals, [], none⟩ [cloexecFails]).trace =
        [Event.ud_accept 3 7, Event.fcntl_setfd_cloexec 7 (-1), Event.close 7,
          Event.acpid_log "fcntl() on client for FD_CLOEXEC: %s"] ∧
      clients (run ⟨sampleGlobals, [], none⟩ [cloexecFails]).trace = [] ∧
      (run ⟨sampleGlobals, [], none⟩ [cloexecFails]).g.non_root_clients = 1 := by
  decide

/-! ## The client label -/

/-- A successful accept of a peer whose pid, uid and gid have ten digits. -/
def longCredsAccept : AcceptEnv :=
  { fd := 3, cli_fd := 7,
    creds := { pid := 1000000000, uid := 1000000000, gid := 1000000000 },
    setfd := 0, setfl := 0 }

/-- C8, as stated, fails: for pid, uid and gid all equal to 1000000000
(within `int` and `unsigned int`) the connection is admitted and the label
passed to `acpid_add_client` is the 30-character text
`1000000000[1000000000:10000000`, not the complete 33-character string. -/
theorem label_truncated_for_long_credentials :
    (process_sock sampleGlobals longCredsAccept).trace =
        [Event.ud_accept 3 7, Event.fcntl_setfd_cloexec 7 0, Event.fcntl_setfl_nonblock 7 0,
          Event.acpid_add_client 7 "1000000000[1000000000:10000000"] ∧
      spec_label longCredsAccept.creds = "1000000000[1000000000:1000000000]" ∧
      ¬ (∀ (g : Globals) (e : AcceptEnv) (fd : Int) (label : String),
          e.creds.pid ≤ INT_MAX → -2147483648 ≤ e.creds.pid →
          e.creds.uid < 4294967296 → e.creds.gid < 4294967296 →
          Event.acpid_add_client fd label ∈ (process_sock g e).trace →
          label = spec_label e.creds) := by
  refine ⟨by decide, by decide, ?_⟩
  intro h
  have := h sampleGlobals longCredsAccept 7 "1000000000[1000000000:10000000"
    (by decide) (by decide) (by decide) (by decide) (by decide)
  revert this
  decide

/-- C8 (amended): for every admitted connection whose credential has
`uid` and `gid` at most `INT_MAX`, the label passed to `acpid_add_client` is
the first 30 characters of the string made of the decimal pid, `[`, the
decimal uid, `:`, the decimal gid and `]`; it is that string, complete and
untruncated, exactly when the string has at most 30 characters, and that is
so whenever `0 <= pid < 10000000`. -/
theorem label_is_first_thirty_characters (g : Globals) (e : AcceptEnv) (fd : Int)
    (label : String) (hu : (e.creds.uid : Int) ≤ INT_MAX) (hg : (e.creds.gid : Int) ≤ INT_MAX)
    (h : Event.acpid_add_client fd label ∈ (process_sock g e).trace) :
    label = String.mk ((spec_label e.creds).data.take 30) ∧
      (label = spec_label e.creds ↔ (spec_label e.creds).length ≤ 30) ∧
      (0 ≤ e.creds.pid → e.creds.pid < 10000000 → label = spec_label e.creds) := by
  obtain ⟨_, _, _, hl, _⟩ := process_sock_registers g e fd label h
  have htake := client_label_eq_take e.creds hu hg
  rw [htake] at hl
  have hiff : label = spec_label e.creds ↔ (spec_label e.creds).length ≤ 30 := by
    rw [hl, String.ext_iff]
    show (spec_label e.creds).data.take 30 = (spec_label e.creds).data ↔
      (spec_label e.creds).data.length ≤ 30
    constructor
    · intro heq
      have := congrArg List.length heq
      rw [List.length_take] at this
      omega
    · exact List.take_of_length_le
  refine ⟨hl, hiff, ?_⟩
  intro hp0 hp1
  rw [hiff, spec_label_length]
  have hpid : (toString e.creds.pid).length ≤ 7 := by
    obtain ⟨n, hn⟩ := Int.eq_ofNat_of_zero_le hp0
    rw [hn]
    show (Nat.repr n).length ≤ 7
    exact Nat.repr_length n 7 (by norm_num) (by rw [hn] at hp1; norm_num; omega)
  have huid : (toString e.creds.uid).length ≤ 10 :=
    Nat.repr_length _ 10 (by norm_num) (by unfold INT_MAX at hu; norm_num; omega)
  have hgid : (toString e.creds.gid).length ≤ 10 :=
    Nat.repr_length _ 10 (by norm_num) (by unfold INT_MAX at hg; norm_num; omega)
  omega

theorem label_is_first_thirty_characters_witness :
    (userAccept.creds.uid : Int) ≤ INT_MAX ∧ (userAccept.creds.gid : Int) ≤ INT_MAX ∧
      Event.acpid_add_client 7 "1234[1000:100]" ∈ (process_sock sampleGlobals userAccept).trace ∧
      "1234[1000:100]" = spec_label userAccept.creds :=
  ⟨by decide, by decide, by decide,
    (label_is_first_thirty_characters sampleGlobals userAccept 7 "1234[1000:100]"
      (by decide) (by decide) (by decide)).2.2 (by decide) (by decide)⟩

end Acpid
